import Mathlib

/-!
Verification of the session observer of the atomic DRM backend
(`src/backend/drm/atomic/session.rs`).

The observer reacts to session signals (pause / activate), clears cursor
planes on pause, and on activate runs a reset algorithm: it enumerates
connectors and CRTCs, builds a single atomic mode-setting request that
disables everything, submits it with the AllowModeset flag, and then
invalidates every live surface's current state so the next rendering step
performs a full commit.

Modelling conventions:
- kernel calls (resource enumeration, atomic commit, dup2, master lock
  acquire/release, plane clearing, mode-blob creation) are external; their
  outcomes are oracle fields on `Dev` / `AtomicDrmSurfaceInternal`;
- weak references (`Weak`, `WeakArc`) become `Option`: `none` means the
  upgrade fails because the owner was dropped;
- every operation returns, besides the updated observer, a trace of the
  external calls it performed (`Event`), so that "the clear was invoked",
  "exactly one transaction was submitted", "the error was reported" are
  statements about the trace;
- `panic` models a Rust `.expect(...)` abort.
-/

/-- A display mode (`drm_mode_modeinfo`); only the shape matters for the
reset algorithm, which overwrites it with `std::mem::zeroed()`. -/
structure Mode where
  clock : Nat
  hdisplay : Nat
  vdisplay : Nat
  vrefresh : Nat
  deriving DecidableEq, Repr

/-- The all-zero mode produced by `unsafe { std::mem::zeroed() }`. -/
def Mode.zeroed : Mode := ⟨0, 0, 0, 0⟩

/-- Cursor state of a surface (`surface::CursorState`). -/
structure CursorState where
  position : Option (Int × Int)
  hotspot : Int × Int
  framebuffer : Option Nat
  deriving DecidableEq, Repr

/-- The empty cursor state written by `reset_state`. -/
def CursorState.empty : CursorState :=
  { position := none, hotspot := (0, 0), framebuffer := none }

/-- An atomic-state snapshot of a surface: the connector set and the mode
(the two fields `reset_state` touches on the current state). -/
structure State where
  connectors : List Nat
  mode : Mode
  deriving DecidableEq, Repr

/-- The plane handles held by a surface. -/
structure Planes where
  primary : Nat
  cursor : Nat
  deriving DecidableEq, Repr

/-- Context-carrying access error (`Error::Access { errmsg, dev, source }`). -/
structure AccessError where
  errmsg : String
  dev : String
  source : String
  deriving DecidableEq, Repr

/-- One output's internal surface (`AtomicDrmSurfaceInternal`): current and
pending snapshots, cursor state and plane handles, plus oracle fields for
the outcomes of its external operations. -/
structure AtomicDrmSurfaceInternal where
  state : State
  pending : State
  cursor : CursorState
  planes : Planes
  /-- oracle: does `clear_plane` on the cursor plane succeed? -/
  clearPlaneOk : Bool
  /-- oracle: does `use_mode` succeed? -/
  useModeOk : Bool
  /-- the error `use_mode` returns when it fails -/
  useModeErr : AccessError
  /-- the mode-describing property blob uploaded by `use_mode` -/
  modeBlob : Option Mode
  deriving DecidableEq, Repr

/-- Outcome of `ControlDevice::resource_handles`. -/
inductive Resources where
  | ok (connectors crtcs : List Nat)
  | error (source : String)
  deriving DecidableEq, Repr

/-- The device (`Dev`): identity data, the property mapping
(`prop_mapping.0` for connectors, `prop_mapping.1` for CRTCs, both
name-to-id association lists per handle), and oracles for its kernel
calls. The mapping is immutable after init. -/
structure Dev where
  fd : Nat
  devPath : String
  privileged : Bool
  connProps : List (Nat × List (String × Nat))
  crtcProps : List (Nat × List (String × Nat))
  resources : Resources
  /-- `none`: the atomic commit succeeds; `some src`: it fails with `src`. -/
  commitResult : Option String
  /-- oracle: does `dup2` onto a replacement descriptor succeed? -/
  dup2Ok : Bool
  /-- oracle: does `acquire_master_lock` succeed? -/
  acquireOk : Bool
  /-- oracle: does `release_master_lock` succeed? -/
  releaseOk : Bool
  deriving DecidableEq, Repr

/-- Property lookup: handle, then property name, in an association-list
rendering of the `HashMap`s of `prop_mapping`. -/
def lookupProp (m : List (Nat × List (String × Nat))) (h : Nat) (name : String) :
    Option Nat :=
  (m.lookup h).bind fun props => props.lookup name

/-- A property value (`drm::control::property::Value`), restricted to the
variants `reset_state` writes. -/
inductive PropValue where
  | CRTC (h : Option Nat)
  | Boolean (b : Bool)
  | Unknown (v : Nat)
  deriving DecidableEq, Repr

/-- An atomic mode-setting request (`AtomicModeReq`): the list of
(object handle, property id, value) writes, in insertion order. -/
abbrev AtomicModeReq := List (Nat × Nat × PropValue)

/-- `AtomicCommitFlags`; `reset_state` only ever passes `AllowModeset`. -/
inductive AtomicCommitFlags where
  | AllowModeset
  | Nonblock
  | PageFlipEvent
  deriving DecidableEq, Repr

/-- Trace of external calls an operation performed, with their outcomes. -/
inductive Event where
  | clearPlane (plane : Nat) (ok : Bool)
  | releaseMaster (ok : Bool)
  | acquireMaster (ok : Bool)
  | dup2 (oldFd newFd : Nat)
  | commit (flags : List AtomicCommitFlags) (req : AtomicModeReq) (ok : Bool)
  | useMode (mode : Mode) (ok : Bool)
  | warnResetFailed (e : AccessError)
  deriving DecidableEq, Repr

/-- The observer (`AtomicDrmDeviceObserver`): weak device reference, device
identity, privilege flag, activity flag, weak reference to the surface
registry (a list of weak surface references; `none` entries are dead). -/
structure AtomicDrmDeviceObserver where
  dev : Option Dev
  devId : Nat
  privileged : Bool
  active : Bool
  backends : Option (List (Option AtomicDrmSurfaceInternal))
  deriving DecidableEq, Repr

/-- `nix::sys::stat::major` on Linux. -/
def statMajor (dev : Nat) : Nat :=
  ((dev >>> 32) &&& 0xfffff000) ||| ((dev >>> 8) &&& 0xfff)

/-- `nix::sys::stat::minor` on Linux. -/
def statMinor (dev : Nat) : Nat :=
  ((dev >>> 12) &&& 0xffffff00) ||| (dev &&& 0xff)

/-- The session signals the observer dispatches on. -/
inductive SessionSignal where
  | PauseSession
  | PauseDevice (major minor : Nat)
  | ActivateSession
  | ActivateDevice (major minor : Nat) (new_fd : Option Nat)
  deriving DecidableEq, Repr

/-- Result of a dispatched operation: a panic (`.expect` fired), or the
updated observer together with the trace of external calls. -/
inductive SignalResult where
  | panic (msg : String)
  | ok (o : AtomicDrmDeviceObserver) (tr : List Event)
  deriving DecidableEq, Repr

/-- Result of `reset_state`: `err` carries the observer as mutated up to
the failure point, since mutations happen in place through shared
references. -/
inductive ResetResult where
  | panic (msg : String)
  | err (e : AccessError) (o : AtomicDrmDeviceObserver) (tr : List Event)
  | ok (o : AtomicDrmDeviceObserver) (tr : List Event)
  deriving DecidableEq, Repr

/-- The connector loop of `reset_state`: for every connector, look up its
`CRTC_ID` property (`.expect` panics on a missing entry, modelled as
`none`) and add a write setting it to `Value::CRTC(None)`. -/
def buildConnReq (d : Dev) : List Nat → Option AtomicModeReq
  | [] => some []
  | conn :: rest =>
    match lookupProp d.connProps conn "CRTC_ID", buildConnReq d rest with
    | some prop, some tail => some ((conn, prop, PropValue.CRTC none) :: tail)
    | _, _ => none

/-- The CRTC loop of `reset_state`: for every CRTC, look up `MODE_ID` and
`ACTIVE` (panicking on a missing entry) and add writes setting `ACTIVE` to
`Boolean(false)` and `MODE_ID` to `Unknown(0)`, in that order. -/
def buildCrtcReq (d : Dev) : List Nat → Option AtomicModeReq
  | [] => some []
  | crtc :: rest =>
    match lookupProp d.crtcProps crtc "MODE_ID",
        lookupProp d.crtcProps crtc "ACTIVE", buildCrtcReq d rest with
    | some modeProp, some activeProp, some tail =>
      some ((crtc, activeProp, PropValue.Boolean false)
        :: (crtc, modeProp, PropValue.Unknown 0) :: tail)
    | _, _, _ => none

/-- Step (a) of the per-surface invalidation: clear the current connector
set and zero the current mode. -/
def applyInvalidate (s : AtomicDrmSurfaceInternal) : AtomicDrmSurfaceInternal :=
  { s with state := { connectors := [], mode := Mode.zeroed } }

/-- Modelled from the spec: `use_mode` (defined in the surface module, not
in this file's source) regenerates and uploads the surface's
mode-describing resource from the given mode value; it can fail with an
access error. The outcome is the surface's `useModeOk` oracle. -/
def useMode (s : AtomicDrmSurfaceInternal) (m : Mode) :
    Except AccessError AtomicDrmSurfaceInternal :=
  if s.useModeOk then .ok { s with modeBlob := some m } else .error s.useModeErr

/-- Step (c) of the per-surface invalidation: drop the cursor state. -/
def resetCursor (s : AtomicDrmSurfaceInternal) : AtomicDrmSurfaceInternal :=
  { s with cursor := CursorState.empty }

/-- A full successful per-surface pass of the reset algorithm: state
invalidated, mode blob regenerated from the pending mode, cursor
dropped. -/
def processSurface (s : AtomicDrmSurfaceInternal) : AtomicDrmSurfaceInternal :=
  resetCursor { applyInvalidate s with modeBlob := some s.pending.mode }

/-- The surface loop of `reset_state`: for every live surface, invalidate
its current state, regenerate the mode blob from the pending mode
(`use_mode`, whose failure aborts the loop via `?`), and reset the cursor.
Returns the registry as mutated so far, the `use_mode` trace, and the
error if one occurred. -/
def resetSurfaces : List (Option AtomicDrmSurfaceInternal) →
    List (Option AtomicDrmSurfaceInternal) × List Event × Option AccessError
  | [] => ([], [], none)
  | none :: rest =>
    let (l, tr, e) := resetSurfaces rest
    (none :: l, tr, e)
  | some s :: rest =>
    let s1 := applyInvalidate s
    match useMode s1 s.pending.mode with
    | .error e => (some s1 :: rest, [Event.useMode s.pending.mode false], some e)
    | .ok s2 =>
      let s3 := resetCursor s2
      let (l, tr, e) := resetSurfaces rest
      (some s3 :: l, Event.useMode s.pending.mode true :: tr, e)

/-- `reset_state`: if the device is still alive, enumerate resources
(failure is a reported error), build the single disable-everything
request (property lookups panic on a missing mapping), submit it with
`AllowModeset` (failure is a reported error), then invalidate every live
surface (a `use_mode` failure aborts the remaining surfaces). -/
def reset_state (o : AtomicDrmDeviceObserver) : ResetResult :=
  match o.dev with
  | none => .ok o []
  | some dev =>
    match dev.resources with
    | .error source =>
      .err ⟨"Error loading drm resources", dev.devPath, source⟩ o []
    | .ok conns crtcs =>
      match buildConnReq dev conns with
      | none => .panic "Unknown handle / Unknown property CRTC_ID"
      | some reqC =>
        match buildCrtcReq dev crtcs with
        | none => .panic "Unknown handle / Unknown property MODE_ID or ACTIVE"
        | some reqR =>
          let req : AtomicModeReq := reqC ++ reqR
          match dev.commitResult with
          | some source =>
            .err ⟨"Failed to disable connectors", dev.devPath, source⟩ o
              [Event.commit [AtomicCommitFlags.AllowModeset] req false]
          | none =>
            let commitEv := Event.commit [AtomicCommitFlags.AllowModeset] req true
            match o.backends with
            | none => .ok o [commitEv]
            | some surfs =>
              let (l, tr, e) := resetSurfaces surfs
              let o' := { o with backends := some l }
              match e with
              | some err => .err err o' (commitEv :: tr)
              | none => .ok o' (commitEv :: tr)

/-- The cursor-plane clears `pause` performs: one `clear_plane` call per
live surface, in registry order, whatever the individual outcomes. -/
def clearTrace (backends : Option (List (Option AtomicDrmSurfaceInternal))) :
    List Event :=
  match backends with
  | none => []
  | some surfs =>
    (surfs.filterMap id).map fun s => Event.clearPlane s.planes.cursor s.clearPlaneOk

/-- The master-lock release `pause` performs when privileged and the
device is alive. -/
def releaseTrace (o : AtomicDrmDeviceObserver) : List Event :=
  if o.privileged then
    match o.dev with
    | some d => [Event.releaseMaster d.releaseOk]
    | none => []
  else []

/-- The master-lock acquisition `activate` performs when privileged and
the device is alive. -/
def acquireTrace (o : AtomicDrmDeviceObserver) : List Event :=
  if o.privileged then
    match o.dev with
    | some d => [Event.acquireMaster d.acquireOk]
    | none => []
  else []

/-- The body of `pause` after device filtering: clear the cursor plane of
every live surface (failures only logged), set the activity flag to
false, and, if privileged, release the master lock (failure only
logged). -/
def pauseBody (o : AtomicDrmDeviceObserver) :
    AtomicDrmDeviceObserver × List Event :=
  ({ o with active := false }, clearTrace o.backends ++ releaseTrace o)

/-- `pause`: a device-scoped pause whose (major, minor) does not match the
observer's device identity returns immediately; otherwise run the body. -/
def pause (o : AtomicDrmDeviceObserver) (devnum : Option (Nat × Nat)) :
    AtomicDrmDeviceObserver × List Event :=
  match devnum with
  | some (major, minor) =>
    if major = statMajor o.devId ∧ minor = statMinor o.devId then pauseBody o
    else (o, [])
  | none => pauseBody o

/-- The tail of `activate` after device filtering and descriptor handling:
if privileged, re-acquire the master lock (failure only logged), set the
activity flag to true, run `reset_state` and log (not return) its error. -/
def activateRest (o : AtomicDrmDeviceObserver) (tr0 : List Event) : SignalResult :=
  let tr1 := tr0 ++ acquireTrace o
  let o1 := { o with active := true }
  match reset_state o1 with
  | .panic m => .panic m
  | .err e o2 tr2 => .ok o2 (tr1 ++ tr2 ++ [Event.warnResetFailed e])
  | .ok o2 tr2 => .ok o2 (tr1 ++ tr2)

/-- `activate`: a device-scoped activate whose identity does not match
returns immediately; a matching one with a replacement descriptor
duplicates the live connection onto it (`dup2`, whose failure panics via
`.expect`); then the shared tail runs. -/
def activate (o : AtomicDrmDeviceObserver)
    (devnum : Option (Nat × Nat × Option Nat)) : SignalResult :=
  match devnum with
  | some (major, minor, fd) =>
    if major = statMajor o.devId ∧ minor = statMinor o.devId then
      match fd with
      | some fdv =>
        match o.dev with
        | some dev =>
          if dev.dup2Ok then activateRest o [Event.dup2 dev.fd fdv]
          else .panic "Failed to replace file descriptor of drm device"
        | none => activateRest o []
      | none => activateRest o []
    else .ok o []
  | none => activateRest o []

/-- Signal dispatch (`AtomicDrmDeviceObserver::signal`). -/
def signal (o : AtomicDrmDeviceObserver) : SessionSignal → SignalResult
  | .PauseSession => let (o', tr) := pause o none; .ok o' tr
  | .PauseDevice major minor =>
    let (o', tr) := pause o (some (major, minor)); .ok o' tr
  | .ActivateSession => activate o none
  | .ActivateDevice major minor fd => activate o (some (major, minor, fd))

/-- Is this event an atomic-commit submission? -/
def Event.isCommit : Event → Bool
  | .commit _ _ _ => true
  | _ => false

/-- The commit submissions contained in a trace. -/
def commitEvents (tr : List Event) : List Event := tr.filter Event.isCommit

/-- The trace component of a reset result. -/
def ResetResult.trace : ResetResult → List Event
  | .panic _ => []
  | .err _ _ tr => tr
  | .ok _ tr => tr

/-- The live surfaces of a registry rendering (dead entries dropped). -/
def liveSurfaces (backends : Option (List (Option AtomicDrmSurfaceInternal))) :
    List AtomicDrmSurfaceInternal :=
  (backends.getD []).filterMap id

/-- Those fields of a surface that the session observer never writes:
pending state, plane handles, and the operation oracles. -/
def surfaceFrame (s s' : AtomicDrmSurfaceInternal) : Prop :=
  s'.pending = s.pending ∧ s'.planes = s.planes ∧
  s'.clearPlaneOk = s.clearPlaneOk ∧ s'.useModeOk = s.useModeOk ∧
  s'.useModeErr = s.useModeErr

/-- `surfaceFrame` lifted to a registry slot: liveness is preserved. -/
def slotFrame : Option AtomicDrmSurfaceInternal →
    Option AtomicDrmSurfaceInternal → Prop
  | none, none => True
  | some s, some s' => surfaceFrame s s'
  | _, _ => False

/-- `surfaceFrame` lifted to the whole weak registry reference. -/
def backendsFrame : Option (List (Option AtomicDrmSurfaceInternal)) →
    Option (List (Option AtomicDrmSurfaceInternal)) → Prop
  | none, none => True
  | some l, some l' => List.Forall₂ slotFrame l l'
  | _, _ => False

/-! ### Concrete fixture: a device with two connectors, one CRTC, and one
live surface, used to instantiate the theorems below. -/

/-- Fixture device; dev node 226:0, complete property mapping. -/
def devW : Dev :=
  { fd := 3
    devPath := "/dev/dri/card0"
    privileged := true
    connProps := [(10, [("CRTC_ID", 100)]), (11, [("CRTC_ID", 101)])]
    crtcProps := [(20, [("MODE_ID", 200), ("ACTIVE", 201)])]
    resources := .ok [10, 11] [20]
    commitResult := none
    dup2Ok := true
    acquireOk := true
    releaseOk := true }

/-- Fixture surface with a non-trivial current state and cursor. -/
def surfW : AtomicDrmSurfaceInternal :=
  { state := { connectors := [10], mode := ⟨65, 1920, 1080, 60⟩ }
    pending := { connectors := [10], mode := ⟨74, 2560, 1440, 60⟩ }
    cursor := { position := some (5, 5), hotspot := (1, 2), framebuffer := some 7 }
    planes := { primary := 30, cursor := 31 }
    clearPlaneOk := true
    useModeOk := true
    useModeErr := ⟨"use_mode", "/dev/dri/card0", "EINVAL"⟩
    modeBlob := some ⟨65, 1920, 1080, 60⟩ }

/-- `surfW` as `reset_state` leaves it: invalidated state, regenerated
blob, empty cursor. -/
def surfWReset : AtomicDrmSurfaceInternal :=
  { surfW with
    state := { connectors := [], mode := Mode.zeroed }
    cursor := CursorState.empty
    modeBlob := some ⟨74, 2560, 1440, 60⟩ }

/-- Fixture observer: live device `devW` (dev_t 226 « 8 = 57856), one live
surface, currently active. -/
def obsW : AtomicDrmDeviceObserver :=
  { dev := some devW
    devId := 57856
    privileged := true
    active := true
    backends := some [some surfW] }

/-- A surface whose `clear_plane` and `use_mode` fail. -/
def surfF : AtomicDrmSurfaceInternal :=
  { surfW with
    clearPlaneOk := false
    useModeOk := false
    useModeErr := ⟨"use_mode", "/dev/dri/card0", "ENOSPC"⟩ }

/-- Observer with three surfaces, the middle one failing, and a dead slot. -/
def obsF : AtomicDrmDeviceObserver :=
  { obsW with backends := some [some surfW, some surfF, none, some surfW] }

/-- Device whose atomic commit fails. -/
def devC : Dev := { devW with commitResult := some "EACCES" }

/-- Observer on `devC`. -/
def obsC : AtomicDrmDeviceObserver := { obsW with dev := some devC }

/-- Device whose property mapping is missing `CRTC_ID` for connector 11. -/
def devM : Dev := { devW with connProps := [(10, [("CRTC_ID", 100)])] }

/-- Observer on `devM`. -/
def obsM : AtomicDrmDeviceObserver := { obsW with dev := some devM }

/-- Observer whose device was dropped (weak upgrade fails); by ownership
(each live surface holds a strong reference to the device) its registry
holds no live surface. -/
def obsD : AtomicDrmDeviceObserver :=
  { obsW with
    dev := none
    backends := some [none] }

/-- The connector writes of the fixture's disable request. -/
def reqCW : AtomicModeReq :=
  [(10, 100, PropValue.CRTC none), (11, 101, PropValue.CRTC none)]

/-- The CRTC writes of the fixture's disable request. -/
def reqRW : AtomicModeReq :=
  [(20, 201, PropValue.Boolean false), (20, 200, PropValue.Unknown 0)]

/-- `obsW` after a successful reset. -/
def obsWreset : AtomicDrmDeviceObserver :=
  { obsW with backends := some [some surfWReset] }

/-- `obsW` after a pause. -/
def obsWp : AtomicDrmDeviceObserver := { obsW with active := false }

/-- `obsC` with the activity flag raised (what activate hands to the
reset while the commit fails). -/
def obsCA : AtomicDrmDeviceObserver := { obsC with active := true }

/-- The access error a failing fixture commit produces. -/
def errCommitW : AccessError :=
  ⟨"Failed to disable connectors", "/dev/dri/card0", "EACCES"⟩

/-! ### Helper lemmas -/

/-- If the connector request builds, every enumerated connector contributes
its `CRTC_ID := None` write. -/
lemma buildConnReq_mem (d : Dev) :
    ∀ (conns : List Nat) (reqC : AtomicModeReq), buildConnReq d conns = some reqC →
      ∀ conn ∈ conns, ∃ p, lookupProp d.connProps conn "CRTC_ID" = some p ∧
        (conn, p, PropValue.CRTC none) ∈ reqC := by
  intro conns
  induction conns with
  | nil => intro reqC _ conn hc; exact absurd hc (List.not_mem_nil conn)
  | cons c rest ih =>
    intro reqC h conn hc
    rw [buildConnReq] at h
    split at h
    next prop tail hl ht =>
      injection h with h
      subst h
      rcases List.mem_cons.mp hc with rfl | hc
      · exact ⟨prop, hl, List.mem_cons_self _ _⟩
      · obtain ⟨p, hp, hm⟩ := ih tail ht conn hc
        exact ⟨p, hp, List.mem_cons_of_mem _ hm⟩
    next => exact absurd h (by simp)

/-- If the CRTC request builds, every enumerated CRTC contributes its
`ACTIVE := false` and `MODE_ID := 0` writes. -/
lemma buildCrtcReq_mem (d : Dev) :
    ∀ (crtcs : List Nat) (reqR : AtomicModeReq), buildCrtcReq d crtcs = some reqR →
      ∀ crtc ∈ crtcs, ∃ pm pa, lookupProp d.crtcProps crtc "MODE_ID" = some pm ∧
        lookupProp d.crtcProps crtc "ACTIVE" = some pa ∧
        (crtc, pa, PropValue.Boolean false) ∈ reqR ∧
        (crtc, pm, PropValue.Unknown 0) ∈ reqR := by
  intro crtcs
  induction crtcs with
  | nil => intro reqR _ crtc hc; exact absurd hc (List.not_mem_nil crtc)
  | cons c rest ih =>
    intro reqR h crtc hc
    rw [buildCrtcReq] at h
    split at h
    next modeProp activeProp tail hm ha ht =>
      injection h with h
      subst h
      rcases List.mem_cons.mp hc with rfl | hc
      · exact ⟨modeProp, activeProp, hm, ha, List.mem_cons_self _ _,
          List.mem_cons_of_mem _ (List.mem_cons_self _ _)⟩
      · obtain ⟨pm, pa, hpm, hpa, h1, h2⟩ := ih tail ht crtc hc
        exact ⟨pm, pa, hpm, hpa, List.mem_cons_of_mem _ (List.mem_cons_of_mem _ h1),
          List.mem_cons_of_mem _ (List.mem_cons_of_mem _ h2)⟩
    next => exact absurd h (by simp)

/-- A connector without a `CRTC_ID` mapping makes the connector request
builder abort. -/
lemma buildConnReq_none (d : Dev) :
    ∀ (conns : List Nat), ∀ conn ∈ conns,
      lookupProp d.connProps conn "CRTC_ID" = none → buildConnReq d conns = none := by
  intro conns
  induction conns with
  | nil => intro conn hc; exact absurd hc (List.not_mem_nil conn)
  | cons c rest ih =>
    intro conn hc hl
    rcases List.mem_cons.mp hc with rfl | hc
    · rw [buildConnReq, hl]
    · rw [buildConnReq, ih conn hc hl]
      cases lookupProp d.connProps c "CRTC_ID" <;> rfl

/-- A CRTC without a `MODE_ID` or `ACTIVE` mapping makes the CRTC request
builder abort. -/
lemma buildCrtcReq_none (d : Dev) :
    ∀ (crtcs : List Nat), ∀ crtc ∈ crtcs,
      (lookupProp d.crtcProps crtc "MODE_ID" = none ∨
        lookupProp d.crtcProps crtc "ACTIVE" = none) →
      buildCrtcReq d crtcs = none := by
  intro crtcs
  induction crtcs with
  | nil => intro crtc hc; exact absurd hc (List.not_mem_nil crtc)
  | cons c rest ih =>
    intro crtc hc hl
    rcases List.mem_cons.mp hc with rfl | hc
    · rcases hl with hl | hl
      · rw [buildCrtcReq, hl]
      · rw [buildCrtcReq, hl]
        cases lookupProp d.crtcProps crtc "MODE_ID" <;>
          cases buildCrtcReq d rest <;> rfl
    · rw [buildCrtcReq, ih crtc hc hl]
      cases lookupProp d.crtcProps c "MODE_ID" <;>
        cases lookupProp d.crtcProps c "ACTIVE" <;> rfl

/-- Every registry slot is framed against itself. -/
lemma slotFrame_refl (x : Option AtomicDrmSurfaceInternal) : slotFrame x x := by
  cases x
  · trivial
  · exact ⟨rfl, rfl, rfl, rfl, rfl⟩

/-- Every registry reference is framed against itself. -/
lemma backendsFrame_refl (b : Option (List (Option AtomicDrmSurfaceInternal))) :
    backendsFrame b b := by
  cases b
  · trivial
  · exact List.forall₂_same.mpr fun x _ => slotFrame_refl x

/-- Inversion of a successful `useMode`. -/
lemma useMode_eq_ok {s s' : AtomicDrmSurfaceInternal} {m : Mode}
    (h : useMode s m = .ok s') :
    s' = { s with modeBlob := some m } ∧ s.useModeOk = true := by
  rw [useMode] at h
  split at h
  · injection h with h; exact ⟨h.symm, by assumption⟩
  · exact absurd h (by simp)

/-- Inversion of a failing `useMode`. -/
lemma useMode_eq_err {s : AtomicDrmSurfaceInternal} {m : Mode} {e : AccessError}
    (h : useMode s m = .error e) :
    e = s.useModeErr ∧ s.useModeOk = false := by
  rw [useMode] at h
  split at h
  · exact absurd h (by simp)
  · injection h with h
    exact ⟨h.symm, by simp_all⟩

/-- On a successful pass, every surviving live surface has been
invalidated: empty connector set, zeroed mode, empty cursor. -/
lemma resetSurfaces_ok_mem :
    ∀ (surfs l : List (Option AtomicDrmSurfaceInternal)) (tr : List Event),
      resetSurfaces surfs = (l, tr, none) →
      ∀ s ∈ l.filterMap id,
        s.state.connectors = [] ∧ s.state.mode = Mode.zeroed ∧
        s.cursor = CursorState.empty := by
  intro surfs
  induction surfs with
  | nil =>
    intro l tr h s hs
    rw [resetSurfaces] at h
    injection h with h1 h2
    subst h1
    exact absurd hs (by simp)
  | cons hd rest ih =>
    intro l tr h s hs
    cases hd with
    | none =>
      rw [resetSurfaces] at h
      rcases heq : resetSurfaces rest with ⟨l', tr', e'⟩
      rw [heq] at h
      injection h with h1 h2
      injection h2 with h2 h3
      subst h1 h2 h3
      exact ih l' tr' heq s (by simpa using hs)
    | some t =>
      rw [resetSurfaces] at h
      rcases hu : useMode (applyInvalidate t) t.pending.mode with e | s2 <;> rw [hu] at h
      · injection h with h1 h2
        injection h2 with h2 h3
        exact absurd h3 (by simp)
      · rcases heq : resetSurfaces rest with ⟨l', tr', e'⟩
        rw [heq] at h
        injection h with h1 h2
        injection h2 with h2 h3
        subst h1 h2 h3
        obtain ⟨hs2, _⟩ := useMode_eq_ok hu
        rcases (by simpa using hs : s = resetCursor s2 ∨ s ∈ l'.filterMap id) with rfl | hmem
        · subst hs2
          refine ⟨rfl, rfl, rfl⟩
        · exact ih l' tr' heq s hmem

/-- The surface pass never writes the framed surface fields and keeps
every registry slot's liveness. -/
lemma resetSurfaces_frame :
    ∀ surfs : List (Option AtomicDrmSurfaceInternal),
      List.Forall₂ slotFrame surfs (resetSurfaces surfs).1 := by
  intro surfs
  induction surfs with
  | nil => exact List.Forall₂.nil
  | cons hd rest ih =>
    cases hd with
    | none =>
      rw [resetSurfaces]
      rcases heq : resetSurfaces rest with ⟨l', tr', e'⟩
      rw [heq] at ih
      exact List.Forall₂.cons trivial ih
    | some t =>
      rw [resetSurfaces]
      rcases hu : useMode (applyInvalidate t) t.pending.mode with e | s2
      · exact List.Forall₂.cons ⟨rfl, rfl, rfl, rfl, rfl⟩
          (List.forall₂_same.mpr fun x _ => slotFrame_refl x)
      · rcases heq : resetSurfaces rest with ⟨l', tr', e'⟩
        rw [heq] at ih
        obtain ⟨hs2, _⟩ := useMode_eq_ok hu
        subst hs2
        exact List.Forall₂.cons ⟨rfl, rfl, rfl, rfl, rfl⟩ ih

/-- Every event the surface pass emits is a `useMode` call. -/
lemma resetSurfaces_trace :
    ∀ surfs : List (Option AtomicDrmSurfaceInternal),
      ∀ ev ∈ (resetSurfaces surfs).2.1, ∃ m b, ev = Event.useMode m b := by
  intro surfs
  induction surfs with
  | nil => intro ev hev; exact absurd hev (by simp [resetSurfaces])
  | cons hd rest ih =>
    intro ev hev
    cases hd with
    | none =>
      rw [resetSurfaces] at hev
      rcases heq : resetSurfaces rest with ⟨l', tr', e'⟩
      rw [heq] at hev
      exact ih ev (by simpa [heq] using hev)
    | some t =>
      rw [resetSurfaces] at hev
      rcases hu : useMode (applyInvalidate t) t.pending.mode with e | s2 <;> rw [hu] at hev
      · simp only [List.mem_singleton] at hev
        exact ⟨_, _, hev⟩
      · rcases heq : resetSurfaces rest with ⟨l', tr', e'⟩
        rw [heq] at hev
        rcases (by simpa using hev : ev = Event.useMode t.pending.mode true ∨ ev ∈ tr') with rfl | hm
        · exact ⟨_, _, rfl⟩
        · exact ih ev (by simpa [heq] using hm)

/-- If the surface pass hits a live surface whose `use_mode` fails, and
every earlier live surface succeeds, the pass stops there: earlier slots
are fully processed, the failing surface is left invalidated but with its
cursor untouched, every later slot is returned unchanged, and the error
is the failing surface's. -/
lemma resetSurfaces_fail_at :
    ∀ (pre : List (Option AtomicDrmSurfaceInternal))
      (s : AtomicDrmSurfaceInternal) (post : List (Option AtomicDrmSurfaceInternal)),
      (∀ t ∈ pre.filterMap id, t.useModeOk = true) → s.useModeOk = false →
      resetSurfaces (pre ++ some s :: post) =
        (pre.map (Option.map processSurface) ++ some (applyInvalidate s) :: post,
          (pre.filterMap id).map (fun t => Event.useMode t.pending.mode true) ++
            [Event.useMode s.pending.mode false],
          some s.useModeErr) := by
  intro pre
  induction pre with
  | nil =>
    intro s post hpre hs
    rw [List.nil_append, resetSurfaces]
    have hu : useMode (applyInvalidate s) s.pending.mode = .error s.useModeErr := by
      rw [useMode]
      simp [applyInvalidate, hs]
    rw [hu]
    simp
  | cons hd rest ih =>
    intro s post hpre hs
    cases hd with
    | none =>
      rw [List.cons_append, resetSurfaces,
        ih s post (fun t ht => hpre t (by simpa using ht)) hs]
      simp
    | some t =>
      have htOk : t.useModeOk = true := hpre t (by simp)
      have hu : useMode (applyInvalidate t) t.pending.mode =
          .ok { applyInvalidate t with modeBlob := some t.pending.mode } := by
        rw [useMode]
        simp [applyInvalidate, htOk]
      rw [List.cons_append, resetSurfaces, hu,
        ih s post (fun u huu => hpre u (by simp [huu])) hs]
      simp [processSurface]

/-- Evaluation: with a dead device handle, `reset_state` does nothing. -/
lemma reset_state_nodev (o : AtomicDrmDeviceObserver) (h : o.dev = none) :
    reset_state o = .ok o [] := by
  simp only [reset_state, h]

/-- Evaluation: enumeration failure is reported as an access error. -/
lemma reset_state_res_err (o : AtomicDrmDeviceObserver) (d : Dev) (src : String)
    (hdev : o.dev = some d) (hres : d.resources = .error src) :
    reset_state o = .err ⟨"Error loading drm resources", d.devPath, src⟩ o [] := by
  simp only [reset_state, hdev, hres]

/-- Evaluation: a missing connector property mapping panics. -/
lemma reset_state_panic_conn (o : AtomicDrmDeviceObserver) (d : Dev)
    (conns crtcs : List Nat) (hdev : o.dev = some d)
    (hres : d.resources = .ok conns crtcs) (hbc : buildConnReq d conns = none) :
    reset_state o = .panic "Unknown handle / Unknown property CRTC_ID" := by
  simp only [reset_state, hdev, hres, hbc]

/-- Evaluation: a missing CRTC property mapping panics. -/
lemma reset_state_panic_crtc (o : AtomicDrmDeviceObserver) (d : Dev)
    (conns crtcs : List Nat) (reqC : AtomicModeReq) (hdev : o.dev = some d)
    (hres : d.resources = .ok conns crtcs) (hbc : buildConnReq d conns = some reqC)
    (hbr : buildCrtcReq d crtcs = none) :
    reset_state o = .panic "Unknown handle / Unknown property MODE_ID or ACTIVE" := by
  simp only [reset_state, hdev, hres, hbc, hbr]

/-- Evaluation: commit failure is reported as an access error, after the
single submission. -/
lemma reset_state_commit_err (o : AtomicDrmDeviceObserver) (d : Dev)
    (conns crtcs : List Nat) (reqC reqR : AtomicModeReq) (src : String)
    (hdev : o.dev = some d) (hres : d.resources = .ok conns crtcs)
    (hbc : buildConnReq d conns = some reqC) (hbr : buildCrtcReq d crtcs = some reqR)
    (hcr : d.commitResult = some src) :
    reset_state o = .err ⟨"Failed to disable connectors", d.devPath, src⟩ o
      [Event.commit [AtomicCommitFlags.AllowModeset] (reqC ++ reqR) false] := by
  simp only [reset_state, hdev, hres, hbc, hbr, hcr]

/-- Evaluation: successful commit with a dead registry reference skips the
surface pass. -/
lemma reset_state_nobackends (o : AtomicDrmDeviceObserver) (d : Dev)
    (conns crtcs : List Nat) (reqC reqR : AtomicModeReq)
    (hdev : o.dev = some d) (hres : d.resources = .ok conns crtcs)
    (hbc : buildConnReq d conns = some reqC) (hbr : buildCrtcReq d crtcs = some reqR)
    (hcr : d.commitResult = none) (hb : o.backends = none) :
    reset_state o = .ok o
      [Event.commit [AtomicCommitFlags.AllowModeset] (reqC ++ reqR) true] := by
  simp only [reset_state, hdev, hres, hbc, hbr, hcr, hb]

/-- Evaluation: successful commit, then a fully successful surface pass. -/
lemma reset_state_run_ok (o : AtomicDrmDeviceObserver) (d : Dev)
    (conns crtcs : List Nat) (reqC reqR : AtomicModeReq)
    (surfs l : List (Option AtomicDrmSurfaceInternal)) (trS : List Event)
    (hdev : o.dev = some d) (hres : d.resources = .ok conns crtcs)
    (hbc : buildConnReq d conns = some reqC) (hbr : buildCrtcReq d crtcs = some reqR)
    (hcr : d.commitResult = none) (hb : o.backends = some surfs)
    (hrs : resetSurfaces surfs = (l, trS, none)) :
    reset_state o = .ok { o with backends := some l }
      (Event.commit [AtomicCommitFlags.AllowModeset] (reqC ++ reqR) true :: trS) := by
  simp only [reset_state, hdev, hres, hbc, hbr, hcr, hb, hrs]

/-- Evaluation: successful commit, then a surface pass failing with `err`. -/
lemma reset_state_run_err (o : AtomicDrmDeviceObserver) (d : Dev)
    (conns crtcs : List Nat) (reqC reqR : AtomicModeReq)
    (surfs l : List (Option AtomicDrmSurfaceInternal)) (trS : List Event)
    (err : AccessError)
    (hdev : o.dev = some d) (hres : d.resources = .ok conns crtcs)
    (hbc : buildConnReq d conns = some reqC) (hbr : buildCrtcReq d crtcs = some reqR)
    (hcr : d.commitResult = none) (hb : o.backends = some surfs)
    (hrs : resetSurfaces surfs = (l, trS, some err)) :
    reset_state o = .err err { o with backends := some l }
      (Event.commit [AtomicCommitFlags.AllowModeset] (reqC ++ reqR) true :: trS) := by
  simp only [reset_state, hdev, hres, hbc, hbr, hcr, hb, hrs]

/-- Whatever non-panicking outcome `reset_state` produces, the resulting
observer keeps its device reference, identity, privilege flag and
activity flag, and each registry slot keeps its framed fields. -/
lemma reset_state_obs (o : AtomicDrmDeviceObserver) (e : AccessError)
    (o2 : AtomicDrmDeviceObserver) (tr : List Event)
    (h : reset_state o = .err e o2 tr ∨ reset_state o = .ok o2 tr) :
    o2.dev = o.dev ∧ o2.devId = o.devId ∧ o2.privileged = o.privileged ∧
    o2.active = o.active ∧ backendsFrame o.backends o2.backends := by
  rcases hdev : o.dev with _ | d
  · rw [reset_state_nodev o hdev] at h
    rcases h with h | h
    · exact ResetResult.noConfusion h
    · injection h with ho htr
      subst ho
      exact ⟨hdev, rfl, rfl, rfl, backendsFrame_refl _⟩
  · rcases hres : d.resources with ⟨conns, crtcs⟩ | src
    · rcases hbc : buildConnReq d conns with _ | reqC
      · rw [reset_state_panic_conn o d conns crtcs hdev hres hbc] at h
        rcases h with h | h <;> exact ResetResult.noConfusion h
      · rcases hbr : buildCrtcReq d crtcs with _ | reqR
        · rw [reset_state_panic_crtc o d conns crtcs reqC hdev hres hbc hbr] at h
          rcases h with h | h <;> exact ResetResult.noConfusion h
        · rcases hcr : d.commitResult with _ | src
          · rcases hb : o.backends with _ | surfs
            · rw [reset_state_nobackends o d conns crtcs reqC reqR hdev hres hbc hbr
                hcr hb] at h
              rcases h with h | h
              · exact ResetResult.noConfusion h
              · injection h with ho htr
                subst ho
                exact ⟨hdev, rfl, rfl, rfl, by rw [hb]; trivial⟩
            · rcases hrs : resetSurfaces surfs with ⟨l, trS, eS⟩
              have hf := resetSurfaces_frame surfs
              rw [hrs] at hf
              rcases eS with _ | err
              · rw [reset_state_run_ok o d conns crtcs reqC reqR surfs l trS
                  hdev hres hbc hbr hcr hb hrs] at h
                rcases h with h | h
                · exact ResetResult.noConfusion h
                · injection h with ho htr
                  subst ho
                  exact ⟨hdev, rfl, rfl, rfl, hf⟩
              · rw [reset_state_run_err o d conns crtcs reqC reqR surfs l trS err
                  hdev hres hbc hbr hcr hb hrs] at h
                rcases h with h | h
                · injection h with he ho htr
                  subst ho
                  exact ⟨hdev, rfl, rfl, rfl, hf⟩
                · exact ResetResult.noConfusion h
          · rw [reset_state_commit_err o d conns crtcs reqC reqR src
              hdev hres hbc hbr hcr] at h
            rcases h with h | h
            · injection h with he ho htr
              subst ho
              exact ⟨hdev, rfl, rfl, rfl, backendsFrame_refl _⟩
            · exact ResetResult.noConfusion h
    · rw [reset_state_res_err o d src hdev hres] at h
      rcases h with h | h
      · injection h with he ho htr
        subst ho
        exact ⟨hdev, rfl, rfl, rfl, backendsFrame_refl _⟩
      · exact ResetResult.noConfusion h

/-- Evaluation: a session-wide pause runs the body. -/
lemma pause_session (o : AtomicDrmDeviceObserver) : pause o none = pauseBody o := rfl

/-- Evaluation: a device pause with matching identity runs the body. -/
lemma pause_device_match (o : AtomicDrmDeviceObserver) (M m : Nat)
    (hM : M = statMajor o.devId) (hm : m = statMinor o.devId) :
    pause o (some (M, m)) = pauseBody o := by
  simp only [pause, hM, hm, and_self, if_true]

/-- Evaluation: a device pause with mismatched identity does nothing. -/
lemma pause_device_mismatch (o : AtomicDrmDeviceObserver) (M m : Nat)
    (h : ¬(M = statMajor o.devId ∧ m = statMinor o.devId)) :
    pause o (some (M, m)) = (o, []) := by
  simp only [pause, if_neg h]

/-- Evaluation: a session-wide activate runs the shared tail with no
descriptor handling. -/
lemma activate_session (o : AtomicDrmDeviceObserver) :
    activate o none = activateRest o [] := rfl

/-- Evaluation: a device activate with mismatched identity does nothing. -/
lemma activate_device_mismatch (o : AtomicDrmDeviceObserver) (M m : Nat)
    (fd : Option Nat) (h : ¬(M = statMajor o.devId ∧ m = statMinor o.devId)) :
    activate o (some (M, m, fd)) = .ok o [] := by
  simp only [activate, if_neg h]

/-- Evaluation: a device activate with matching identity and no
replacement descriptor runs the shared tail. -/
lemma activate_device_match_nofd (o : AtomicDrmDeviceObserver) (M m : Nat)
    (hM : M = statMajor o.devId) (hm : m = statMinor o.devId) :
    activate o (some (M, m, none)) = activateRest o [] := by
  simp only [activate, hM, hm, and_self, if_true]

/-- Evaluation: the activate tail when the reset succeeds. -/
lemma activateRest_of_ok (o : AtomicDrmDeviceObserver) (tr0 : List Event)
    (o2 : AtomicDrmDeviceObserver) (tr2 : List Event)
    (h : reset_state { o with active := true } = .ok o2 tr2) :
    activateRest o tr0 = .ok o2 ((tr0 ++ acquireTrace o) ++ tr2) := by
  simp only [activateRest, h]

/-- Evaluation: the activate tail when the reset fails: the error is
reported through the warning log and not returned. -/
lemma activateRest_of_err (o : AtomicDrmDeviceObserver) (tr0 : List Event)
    (e : AccessError) (o2 : AtomicDrmDeviceObserver) (tr2 : List Event)
    (h : reset_state { o with active := true } = .err e o2 tr2) :
    activateRest o tr0 =
      .ok o2 ((tr0 ++ acquireTrace o) ++ tr2 ++ [Event.warnResetFailed e]) := by
  simp only [activateRest, h]

/-- Evaluation: the activate tail when the reset panics. -/
lemma activateRest_of_panic (o : AtomicDrmDeviceObserver) (tr0 : List Event)
    (msg : String) (h : reset_state { o with active := true } = .panic msg) :
    activateRest o tr0 = .panic msg := by
  simp only [activateRest, h]

/-- Any `.ok` outcome of `activateRest` has the activity flag set: the
flag is written before the reset runs and no outcome reverts it. -/
lemma activateRest_active (o : AtomicDrmDeviceObserver) (tr0 : List Event)
    (o2 : AtomicDrmDeviceObserver) (tr : List Event)
    (h : activateRest o tr0 = .ok o2 tr) : o2.active = true := by
  rcases hr : reset_state { o with active := true } with msg | ⟨e, o3, tr3⟩ | ⟨o3, tr3⟩
  · rw [activateRest_of_panic o tr0 msg hr] at h
    exact SignalResult.noConfusion h
  · rw [activateRest_of_err o tr0 e o3 tr3 hr] at h
    injection h with ho htr
    obtain ⟨_, _, _, hact, _⟩ := reset_state_obs _ e o3 tr3 (Or.inl hr)
    rw [← ho]
    exact hact
  · rw [activateRest_of_ok o tr0 o3 tr3 hr] at h
    injection h with ho htr
    obtain ⟨_, _, _, hact, _⟩ := reset_state_obs _ ⟨"", "", ""⟩ o3 tr3 (Or.inr hr)
    rw [← ho]
    exact hact

/-- A trace of `use_mode` calls contains no commit submission. -/
lemma commitEvents_nil (tr : List Event)
    (h : ∀ ev ∈ tr, ∃ m b, ev = Event.useMode m b) : commitEvents tr = [] := by
  induction tr with
  | nil => rfl
  | cons ev rest ih =>
    obtain ⟨m, b, rfl⟩ := h ev (List.mem_cons_self _ _)
    have hrest := ih fun ev hev => h ev (List.mem_cons_of_mem _ hev)
    simpa [commitEvents, Event.isCommit] using hrest

/-- Evaluation: matching device activate with a descriptor but a dead
device skips the duplication. -/
lemma activate_fd_nodev (o : AtomicDrmDeviceObserver) (M m fdv : Nat)
    (hM : M = statMajor o.devId) (hm : m = statMinor o.devId)
    (hdev : o.dev = none) :
    activate o (some (M, m, some fdv)) = activateRest o [] := by
  simp only [activate, hM, hm, and_self, if_true, hdev]

/-- Evaluation: matching device activate with a descriptor duplicates the
connection onto it when `dup2` succeeds. -/
lemma activate_fd_dup_ok (o : AtomicDrmDeviceObserver) (M m fdv : Nat) (d : Dev)
    (hM : M = statMajor o.devId) (hm : m = statMinor o.devId)
    (hdev : o.dev = some d) (hdup : d.dup2Ok = true) :
    activate o (some (M, m, some fdv)) = activateRest o [Event.dup2 d.fd fdv] := by
  simp only [activate, hM, hm, and_self, if_true, hdev, hdup]

/-- Evaluation: matching device activate with a descriptor panics when
`dup2` fails (`.expect`). -/
lemma activate_fd_dup_fail (o : AtomicDrmDeviceObserver) (M m fdv : Nat) (d : Dev)
    (hM : M = statMajor o.devId) (hm : m = statMinor o.devId)
    (hdev : o.dev = some d) (hdup : d.dup2Ok = false) :
    activate o (some (M, m, some fdv)) =
      .panic "Failed to replace file descriptor of drm device" := by
  simp only [activate, hM, hm, and_self, if_true, hdev, hdup, Bool.false_eq_true,
    if_false]

/-- Dispatch equation for `PauseSession`. -/
lemma signal_pauseSession (o : AtomicDrmDeviceObserver) :
    signal o .PauseSession = .ok (pause o none).1 (pause o none).2 := rfl

/-- Dispatch equation for `PauseDevice`. -/
lemma signal_pauseDevice (o : AtomicDrmDeviceObserver) (M m : Nat) :
    signal o (.PauseDevice M m) =
      .ok (pause o (some (M, m))).1 (pause o (some (M, m))).2 := rfl

/-- Dispatch equation for `ActivateSession`. -/
lemma signal_activateSession (o : AtomicDrmDeviceObserver) :
    signal o .ActivateSession = activate o none := rfl

/-- Dispatch equation for `ActivateDevice`. -/
lemma signal_activateDevice (o : AtomicDrmDeviceObserver) (M m : Nat)
    (fd : Option Nat) :
    signal o (.ActivateDevice M m fd) = activate o (some (M, m, fd)) := rfl

/-- Any `.ok` outcome of the activate tail keeps device reference,
identity and privilege flag, and frames every surface. -/
lemma activateRest_frame (o : AtomicDrmDeviceObserver) (tr0 : List Event)
    (o2 : AtomicDrmDeviceObserver) (tr : List Event)
    (h : activateRest o tr0 = .ok o2 tr) :
    o2.dev = o.dev ∧ o2.devId = o.devId ∧ o2.privileged = o.privileged ∧
    backendsFrame o.backends o2.backends := by
  rcases hr : reset_state { o with active := true } with msg | ⟨e, o3, tr3⟩ | ⟨o3, tr3⟩
  · rw [activateRest_of_panic o tr0 msg hr] at h
    exact SignalResult.noConfusion h
  · rw [activateRest_of_err o tr0 e o3 tr3 hr] at h
    injection h with ho htr
    obtain ⟨hdev, hid, hpriv, _, hbf⟩ := reset_state_obs _ e o3 tr3 (Or.inl hr)
    subst ho
    exact ⟨hdev, hid, hpriv, hbf⟩
  · rw [activateRest_of_ok o tr0 o3 tr3 hr] at h
    injection h with ho htr
    obtain ⟨hdev, hid, hpriv, _, hbf⟩ :=
      reset_state_obs _ ⟨"", "", ""⟩ o3 tr3 (Or.inr hr)
    subst ho
    exact ⟨hdev, hid, hpriv, hbf⟩

/-- A commit submission at the head of a trace is kept by the filter. -/
lemma commitEvents_cons_commit (flags : List AtomicCommitFlags)
    (req : AtomicModeReq) (b : Bool) (tr : List Event) :
    commitEvents (Event.commit flags req b :: tr) =
      Event.commit flags req b :: commitEvents tr := by
  simp [commitEvents, Event.isCommit]

/-! ### Claims -/

/-- C1: the reset algorithm builds exactly one atomic transaction that,
for every enumerated connector, clears its CRTC assignment
(`CRTC_ID := CRTC(None)`) and, for every enumerated CRTC, clears its
active flag (`ACTIVE := false`) and zeroes its mode reference
(`MODE_ID := Unknown(0)`); the single transaction is submitted with the
explicit `AllowModeset` flag, and both enumeration failure and
submission failure abort the reset with a reported access error. -/
theorem C1_reset_single_disable_transaction (o : AtomicDrmDeviceObserver) (d : Dev)
    (hdev : o.dev = some d) :
    (∀ src, d.resources = .error src →
      reset_state o = .err ⟨"Error loading drm resources", d.devPath, src⟩ o []) ∧
    (∀ conns crtcs reqC reqR, d.resources = .ok conns crtcs →
      buildConnReq d conns = some reqC → buildCrtcReq d crtcs = some reqR →
      (∀ conn ∈ conns, ∃ p, lookupProp d.connProps conn "CRTC_ID" = some p ∧
        (conn, p, PropValue.CRTC none) ∈ reqC ++ reqR) ∧
      (∀ crtc ∈ crtcs, ∃ pm pa, lookupProp d.crtcProps crtc "MODE_ID" = some pm ∧
        lookupProp d.crtcProps crtc "ACTIVE" = some pa ∧
        (crtc, pa, PropValue.Boolean false) ∈ reqC ++ reqR ∧
        (crtc, pm, PropValue.Unknown 0) ∈ reqC ++ reqR) ∧
      commitEvents (ResetResult.trace (reset_state o)) =
        [Event.commit [AtomicCommitFlags.AllowModeset] (reqC ++ reqR)
          d.commitResult.isNone] ∧
      (∀ src, d.commitResult = some src →
        reset_state o = .err ⟨"Failed to disable connectors", d.devPath, src⟩ o
          [Event.commit [AtomicCommitFlags.AllowModeset] (reqC ++ reqR) false])) := by
  refine ⟨fun src hres => reset_state_res_err o d src hdev hres, ?_⟩
  intro conns crtcs reqC reqR hres hbc hbr
  refine ⟨?_, ?_, ?_, fun src hcr =>
    reset_state_commit_err o d conns crtcs reqC reqR src hdev hres hbc hbr hcr⟩
  · intro conn hc
    obtain ⟨p, hp, hm⟩ := buildConnReq_mem d conns reqC hbc conn hc
    exact ⟨p, hp, List.mem_append_left _ hm⟩
  · intro crtc hc
    obtain ⟨pm, pa, hpm, hpa, h1, h2⟩ := buildCrtcReq_mem d crtcs reqR hbr crtc hc
    exact ⟨pm, pa, hpm, hpa, List.mem_append_right _ h1, List.mem_append_right _ h2⟩
  · rcases hcr : d.commitResult with _ | src
    · rcases hb : o.backends with _ | surfs
      · rw [reset_state_nobackends o d conns crtcs reqC reqR hdev hres hbc hbr hcr hb]
        simp [commitEvents, ResetResult.trace, Event.isCommit, hcr]
      · rcases hrs : resetSurfaces surfs with ⟨l, trS, eS⟩
        have htr : commitEvents trS = [] := by
          apply commitEvents_nil
          have hh := resetSurfaces_trace surfs
          rw [hrs] at hh
          exact hh
        rcases eS with _ | err
        · rw [reset_state_run_ok o d conns crtcs reqC reqR surfs l trS
            hdev hres hbc hbr hcr hb hrs]
          simp only [ResetResult.trace]
          rw [commitEvents_cons_commit, htr]
          rfl
        · rw [reset_state_run_err o d conns crtcs reqC reqR surfs l trS err
            hdev hres hbc hbr hcr hb hrs]
          simp only [ResetResult.trace]
          rw [commitEvents_cons_commit, htr]
          rfl
    · rw [reset_state_commit_err o d conns crtcs reqC reqR src hdev hres hbc hbr hcr]
      simp [commitEvents, ResetResult.trace, Event.isCommit, hcr]

/-- C1 witness: the fixture device's reset submits exactly the expected
single transaction. -/
theorem C1_witness :
    commitEvents (ResetResult.trace (reset_state obsW)) =
      [Event.commit [AtomicCommitFlags.AllowModeset] (reqCW ++ reqRW)
        devW.commitResult.isNone] :=
  ((C1_reset_single_disable_transaction obsW devW rfl).2 [10, 11] [20] reqCW reqRW
    rfl rfl rfl).2.2.1

/-- C2: after a successful run of the reset algorithm, every live surface
has its current connector set empty, its current mode equal to the
all-zero sentinel, and its cursor state empty (no position, hotspot
(0, 0), no framebuffer). The well-formedness hypothesis reflects
ownership in the source: every live surface holds a strong reference to
the device, so a dead device implies no live surfaces. -/
theorem C2_reset_invalidates_surfaces (o o2 : AtomicDrmDeviceObserver)
    (tr : List Event)
    (hwf : o.dev = none → liveSurfaces o.backends = [])
    (h : reset_state o = .ok o2 tr) :
    ∀ s ∈ liveSurfaces o2.backends,
      s.state.connectors = [] ∧ s.state.mode = Mode.zeroed ∧
      s.cursor = CursorState.empty := by
  intro s hs
  rcases hdev : o.dev with _ | d
  · rw [reset_state_nodev o hdev] at h
    injection h with ho htr
    subst ho
    rw [hwf hdev] at hs
    exact absurd hs (List.not_mem_nil s)
  · rcases hres : d.resources with ⟨conns, crtcs⟩ | src
    · rcases hbc : buildConnReq d conns with _ | reqC
      · rw [reset_state_panic_conn o d conns crtcs hdev hres hbc] at h
        exact ResetResult.noConfusion h
      · rcases hbr : buildCrtcReq d crtcs with _ | reqR
        · rw [reset_state_panic_crtc o d conns crtcs reqC hdev hres hbc hbr] at h
          exact ResetResult.noConfusion h
        · rcases hcr : d.commitResult with _ | src
          · rcases hb : o.backends with _ | surfs
            · rw [reset_state_nobackends o d conns crtcs reqC reqR hdev hres hbc hbr
                hcr hb] at h
              injection h with ho htr
              subst ho
              rw [show liveSurfaces o.backends = [] from by rw [hb]; rfl] at hs
              exact absurd hs (List.not_mem_nil s)
            · rcases hrs : resetSurfaces surfs with ⟨l, trS, eS⟩
              rcases eS with _ | err
              · rw [reset_state_run_ok o d conns crtcs reqC reqR surfs l trS
                  hdev hres hbc hbr hcr hb hrs] at h
                injection h with ho htr
                subst ho
                exact resetSurfaces_ok_mem surfs l trS hrs s hs
              · rw [reset_state_run_err o d conns crtcs reqC reqR surfs l trS err
                  hdev hres hbc hbr hcr hb hrs] at h
                exact ResetResult.noConfusion h
          · rw [reset_state_commit_err o d conns crtcs reqC reqR src hdev hres hbc
              hbr hcr] at h
            exact ResetResult.noConfusion h
    · rw [reset_state_res_err o d src hdev hres] at h
      exact ResetResult.noConfusion h

/-- C2 witness: the fixture surface is invalidated by the fixture reset. -/
theorem C2_witness :
    surfWReset.state.connectors = [] ∧ surfWReset.state.mode = Mode.zeroed ∧
    surfWReset.cursor = CursorState.empty :=
  C2_reset_invalidates_surfaces obsW obsWreset
    [Event.commit [AtomicCommitFlags.AllowModeset] (reqCW ++ reqRW) true,
      Event.useMode ⟨74, 2560, 1440, 60⟩ true]
    (fun hn => by simp [obsW] at hn) (by decide) surfWReset (by simp [liveSurfaces, obsWreset])

/-- C3: after any pause that applies (session-wide, or device-scoped with
matching identity) the activity flag is false; after any activate that
applies and returns (in particular one whose reset succeeds) the
activity flag is true — the flag is written before the reset and no
reset outcome reverts it. -/
theorem C3_activity_flag (o : AtomicDrmDeviceObserver) (M m : Nat)
    (fd : Option Nat) (oS oD : AtomicDrmDeviceObserver) (trS trD : List Event)
    (hM : M = statMajor o.devId) (hm : m = statMinor o.devId)
    (hS : activate o none = .ok oS trS)
    (hD : activate o (some (M, m, fd)) = .ok oD trD) :
    (pause o none).1.active = false ∧
    (pause o (some (M, m))).1.active = false ∧
    oS.active = true ∧ oD.active = true := by
  refine ⟨rfl, ?_, ?_, ?_⟩
  · rw [pause_device_match o M m hM hm]
    rfl
  · rw [activate_session] at hS
    exact activateRest_active o [] oS trS hS
  · rcases fd with _ | fdv
    · rw [activate_device_match_nofd o M m hM hm] at hD
      exact activateRest_active o [] oD trD hD
    · rcases hdev : o.dev with _ | d
      · rw [activate_fd_nodev o M m fdv hM hm hdev] at hD
        exact activateRest_active o [] oD trD hD
      · rcases hdup : d.dup2Ok with _ | _
        · rw [activate_fd_dup_fail o M m fdv d hM hm hdev hdup] at hD
          exact SignalResult.noConfusion hD
        · rw [activate_fd_dup_ok o M m fdv d hM hm hdev hdup] at hD
          exact activateRest_active o [Event.dup2 d.fd fdv] oD trD hD

/-- C3 witness: pausing the fixture clears the flag; activating it (both
session-wide and device-targeted, with a successful reset) sets it. -/
theorem C3_witness :
    (pause obsW none).1.active = false ∧
    (pause obsW (some (226, 0))).1.active = false ∧
    obsWreset.active = true ∧ obsWreset.active = true :=
  C3_activity_flag obsW 226 0 (some 9) obsWreset obsWreset
    (Event.acquireMaster true ::
      Event.commit [AtomicCommitFlags.AllowModeset] (reqCW ++ reqRW) true ::
      [Event.useMode ⟨74, 2560, 1440, 60⟩ true])
    (Event.dup2 3 9 :: Event.acquireMaster true ::
      Event.commit [AtomicCommitFlags.AllowModeset] (reqCW ++ reqRW) true ::
      [Event.useMode ⟨74, 2560, 1440, 60⟩ true])
    (by decide) (by decide) (by decide) (by decide)

/-- C4: a device-scoped pause or activate whose (major, minor) does not
match the observer's device identity is a no-op: the observer (activity
flag, snapshots, cursor states) is unchanged and the trace is empty, so
no descriptor duplication is performed. -/
theorem C4_mismatch_noop (o : AtomicDrmDeviceObserver) (M m : Nat)
    (fd : Option Nat)
    (h : ¬(M = statMajor o.devId ∧ m = statMinor o.devId)) :
    pause o (some (M, m)) = (o, []) ∧
    activate o (some (M, m, fd)) = .ok o [] :=
  ⟨pause_device_mismatch o M m h, activate_device_mismatch o M m fd h⟩

/-- C4 witness: identity (1, 2) does not match the fixture's (226, 0). -/
theorem C4_witness :
    pause obsW (some (1, 2)) = (obsW, []) ∧
    activate obsW (some (1, 2, some 9)) = .ok obsW [] :=
  C4_mismatch_noop obsW 1 2 (some 9) (by decide)

/-- C5: when the reset fails during an applying activate, the activate
still returns normally with the reset error reported in its trace (the
warning log), and the resulting observer remains active: the flag is set
to true before the reset runs and is not reverted on failure. -/
theorem C5_activate_reset_failure (o : AtomicDrmDeviceObserver) (M m : Nat)
    (e : AccessError) (o2 : AtomicDrmDeviceObserver) (tr2 : List Event)
    (hM : M = statMajor o.devId) (hm : m = statMinor o.devId)
    (h : reset_state { o with active := true } = .err e o2 tr2) :
    activate o none =
      .ok o2 (acquireTrace o ++ tr2 ++ [Event.warnResetFailed e]) ∧
    activate o (some (M, m, none)) =
      .ok o2 (acquireTrace o ++ tr2 ++ [Event.warnResetFailed e]) ∧
    Event.warnResetFailed e ∈ acquireTrace o ++ tr2 ++ [Event.warnResetFailed e] ∧
    o2.active = true := by
  have hact : o2.active = true := by
    obtain ⟨_, _, _, ha, _⟩ := reset_state_obs _ e o2 tr2 (Or.inl h)
    exact ha
  refine ⟨?_, ?_, ?_, hact⟩
  · rw [activate_session, activateRest_of_err o [] e o2 tr2 h]
    rfl
  · rw [activate_device_match_nofd o M m hM hm, activateRest_of_err o [] e o2 tr2 h]
    rfl
  · simp

/-- C5 witness: the fixture whose commit fails still activates, stays
active, and reports the commit error. -/
theorem C5_witness :
    activate obsC none =
      .ok obsCA (acquireTrace obsC ++
        [Event.commit [AtomicCommitFlags.AllowModeset] (reqCW ++ reqRW) false] ++
        [Event.warnResetFailed errCommitW]) ∧
    activate obsC (some (226, 0, none)) =
      .ok obsCA (acquireTrace obsC ++
        [Event.commit [AtomicCommitFlags.AllowModeset] (reqCW ++ reqRW) false] ++
        [Event.warnResetFailed errCommitW]) ∧
    Event.warnResetFailed errCommitW ∈ acquireTrace obsC ++
      [Event.commit [AtomicCommitFlags.AllowModeset] (reqCW ++ reqRW) false] ++
      [Event.warnResetFailed errCommitW] ∧
    obsCA.active = true :=
  C5_activate_reset_failure obsC 226 0 errCommitW obsCA
    [Event.commit [AtomicCommitFlags.AllowModeset] (reqCW ++ reqRW) false]
    (by decide) (by decide) (by decide)

/-- C6: while building the reset transaction, every enumerated connector
needs a `CRTC_ID` property id and every enumerated CRTC a `MODE_ID` and
an `ACTIVE` property id from the device's property mapping; a missing
entry makes `reset_state` abort unconditionally (panic), not return a
typed recoverable error. -/
theorem C6_missing_mapping_panics (o : AtomicDrmDeviceObserver) (d : Dev)
    (conns crtcs : List Nat) (hdev : o.dev = some d)
    (hres : d.resources = .ok conns crtcs) :
    (∀ conn ∈ conns, lookupProp d.connProps conn "CRTC_ID" = none →
      reset_state o = .panic "Unknown handle / Unknown property CRTC_ID") ∧
    (∀ reqC, buildConnReq d conns = some reqC → ∀ crtc ∈ crtcs,
      (lookupProp d.crtcProps crtc "MODE_ID" = none ∨
        lookupProp d.crtcProps crtc "ACTIVE" = none) →
      reset_state o = .panic "Unknown handle / Unknown property MODE_ID or ACTIVE") := by
  constructor
  · intro conn hc hl
    exact reset_state_panic_conn o d conns crtcs hdev hres
      (buildConnReq_none d conns conn hc hl)
  · intro reqC hbc crtc hc hl
    exact reset_state_panic_crtc o d conns crtcs reqC hdev hres hbc
      (buildCrtcReq_none d crtcs crtc hc hl)

/-- C6 witness: the fixture with connector 11 missing from the mapping
panics. -/
theorem C6_witness :
    reset_state obsM = .panic "Unknown handle / Unknown property CRTC_ID" :=
  (C6_missing_mapping_panics obsM devM [10, 11] [20] rfl rfl).1 11
    (by decide) (by decide)

/-- C7: during an applying pause, a `clear_plane` call is made for every
live surface in registry order — even when the clear on some surface `k`
fails, every other surface's clear is still invoked — and the pause
still proceeds to clear the activity flag. -/
theorem C7_pause_clears_every_surface (o : AtomicDrmDeviceObserver)
    (surfs : List (Option AtomicDrmSurfaceInternal)) (k : Nat)
    (hb : o.backends = some surfs)
    (hk : k < (surfs.filterMap id).length)
    (hfail : ((surfs.filterMap id).get ⟨k, hk⟩).clearPlaneOk = false) :
    (∀ j, ∀ hj : j < (surfs.filterMap id).length,
      Event.clearPlane ((surfs.filterMap id).get ⟨j, hj⟩).planes.cursor
        ((surfs.filterMap id).get ⟨j, hj⟩).clearPlaneOk ∈ (pause o none).2) ∧
    Event.clearPlane ((surfs.filterMap id).get ⟨k, hk⟩).planes.cursor false ∈
      (pause o none).2 ∧
    (pause o none).1.active = false := by
  have hall : ∀ j, ∀ hj : j < (surfs.filterMap id).length,
      Event.clearPlane ((surfs.filterMap id).get ⟨j, hj⟩).planes.cursor
        ((surfs.filterMap id).get ⟨j, hj⟩).clearPlaneOk ∈ (pause o none).2 := by
    intro j hj
    rw [pause_session]
    show _ ∈ clearTrace o.backends ++ releaseTrace o
    apply List.mem_append_left
    have hct : clearTrace o.backends =
        (surfs.filterMap id).map
          (fun s => Event.clearPlane s.planes.cursor s.clearPlaneOk) := by
      rw [hb]
      rfl
    rw [hct]
    exact List.mem_map_of_mem _ (List.get_mem _ _ _)
  refine ⟨hall, ?_, ?_⟩
  · have hk2 := hall k hk
    rw [hfail] at hk2
    exact hk2
  · rw [pause_session]
    rfl

/-- C7 witness: with three live fixture surfaces and the middle one's
clear failing, the clear on the last surface is still invoked and the
flag is cleared. -/
theorem C7_witness :
    Event.clearPlane 31 true ∈ (pause obsF none).2 ∧
    Event.clearPlane 31 false ∈ (pause obsF none).2 ∧
    (pause obsF none).1.active = false :=
  ⟨(C7_pause_clears_every_surface obsF [some surfW, some surfF, none, some surfW] 1
      rfl (by decide) (by decide)).1 2 (by decide),
    (C7_pause_clears_every_surface obsF [some surfW, some surfF, none, some surfW] 1
      rfl (by decide) (by decide)).2.1,
    (C7_pause_clears_every_surface obsF [some surfW, some surfF, none, some surfW] 1
      rfl (by decide) (by decide)).2.2⟩

/-- C8: in the surface pass of the reset algorithm, a `use_mode` failure
is fatal and aborts the remaining surfaces: the reset returns exactly the
failing surface's error, surfaces before the failure are fully
processed, the failing surface is left with its snapshot invalidated but
its cursor untouched, and every surface after it keeps its snapshot and
cursor unchanged. -/
theorem C8_use_mode_failure_aborts (o : AtomicDrmDeviceObserver) (d : Dev)
    (conns crtcs : List Nat) (reqC reqR : AtomicModeReq)
    (pre : List (Option AtomicDrmSurfaceInternal)) (s : AtomicDrmSurfaceInternal)
    (post : List (Option AtomicDrmSurfaceInternal))
    (hdev : o.dev = some d) (hres : d.resources = .ok conns crtcs)
    (hbc : buildConnReq d conns = some reqC) (hbr : buildCrtcReq d crtcs = some reqR)
    (hcr : d.commitResult = none)
    (hb : o.backends = some (pre ++ some s :: post))
    (hpre : ∀ t ∈ pre.filterMap id, t.useModeOk = true)
    (hs : s.useModeOk = false) :
    reset_state o = .err s.useModeErr
      { o with backends := some (pre.map (Option.map processSurface) ++
          some (applyInvalidate s) :: post) }
      (Event.commit [AtomicCommitFlags.AllowModeset] (reqC ++ reqR) true ::
        ((pre.filterMap id).map (fun t => Event.useMode t.pending.mode true) ++
          [Event.useMode s.pending.mode false])) ∧
    (applyInvalidate s).cursor = s.cursor ∧
    (applyInvalidate s).state.connectors = [] ∧
    (applyInvalidate s).state.mode = Mode.zeroed :=
  ⟨reset_state_run_err o d conns crtcs reqC reqR (pre ++ some s :: post) _ _
      s.useModeErr hdev hres hbc hbr hcr hb
      (resetSurfaces_fail_at pre s post hpre hs),
    rfl, rfl, rfl⟩

/-- C8 witness: in the fixture with surfaces [ok, failing, dead, ok], the
reset stops at the failing surface with its error; the surface after it
is untouched. -/
theorem C8_witness :
    reset_state obsF = .err surfF.useModeErr
      { obsF with backends := some ([some surfW].map (Option.map processSurface) ++
          some (applyInvalidate surfF) :: [none, some surfW]) }
      (Event.commit [AtomicCommitFlags.AllowModeset] (reqCW ++ reqRW) true ::
        (([surfW].map (fun t => Event.useMode t.pending.mode true)) ++
          [Event.useMode surfF.pending.mode false])) ∧
    (applyInvalidate surfF).cursor = surfF.cursor ∧
    (applyInvalidate surfF).state.connectors = [] ∧
    (applyInvalidate surfF).state.mode = Mode.zeroed :=
  C8_use_mode_failure_aborts obsF devW [10, 11] [20] reqCW reqRW
    [some surfW] surfF [none, some surfW] rfl rfl rfl rfl rfl rfl
    (by decide) (by decide)

/-- C9: if the weak device handle cannot be upgraded, the reset performs
no enumeration, no transaction and no surface invalidation and returns
success (empty trace, unchanged observer); an activate in this situation
still sets the activity flag and reports no error (empty trace). -/
theorem C9_dead_device_reset_noop (o : AtomicDrmDeviceObserver)
    (h : o.dev = none) :
    reset_state o = .ok o [] ∧
    activate o none = .ok { o with active := true } [] := by
  refine ⟨reset_state_nodev o h, ?_⟩
  rw [activate_session]
  have hr : reset_state { o with active := true } = .ok { o with active := true } [] :=
    reset_state_nodev _ h
  rw [activateRest_of_ok o [] _ [] hr]
  have ha : acquireTrace o = [] := by
    rw [acquireTrace, h]
    simp
  rw [ha]
  rfl

/-- C9 witness: the fixture whose device was dropped. -/
theorem C9_witness :
    reset_state obsD = .ok obsD [] ∧
    activate obsD none = .ok { obsD with active := true } [] :=
  C9_dead_device_reset_noop obsD rfl

/-- C10: no dispatched signal that returns modifies the observer's device
reference (hence its property mapping), its device identity, or its
privilege flag; surfaces keep their pending state, plane handles and
operation oracles — only the activity flag, current-state snapshots,
mode blobs and cursor states are written. -/
theorem C10_signal_frame (o : AtomicDrmDeviceObserver) (sig : SessionSignal)
    (o2 : AtomicDrmDeviceObserver) (tr : List Event)
    (h : signal o sig = .ok o2 tr) :
    o2.dev = o.dev ∧ o2.devId = o.devId ∧ o2.privileged = o.privileged ∧
    backendsFrame o.backends o2.backends := by
  cases sig with
  | PauseSession =>
    rw [signal_pauseSession] at h
    injection h with ho htr
    subst ho
    exact ⟨rfl, rfl, rfl, backendsFrame_refl _⟩
  | PauseDevice M m =>
    rw [signal_pauseDevice] at h
    injection h with ho htr
    subst ho
    by_cases hid : M = statMajor o.devId ∧ m = statMinor o.devId
    · rw [pause_device_match o M m hid.1 hid.2]
      exact ⟨rfl, rfl, rfl, backendsFrame_refl _⟩
    · rw [pause_device_mismatch o M m hid]
      exact ⟨rfl, rfl, rfl, backendsFrame_refl _⟩
  | ActivateSession =>
    rw [signal_activateSession, activate_session] at h
    exact activateRest_frame o [] o2 tr h
  | ActivateDevice M m fd =>
    rw [signal_activateDevice] at h
    by_cases hid : M = statMajor o.devId ∧ m = statMinor o.devId
    · rcases fd with _ | fdv
      · rw [activate_device_match_nofd o M m hid.1 hid.2] at h
        exact activateRest_frame o [] o2 tr h
      · rcases hdev : o.dev with _ | d
        · rw [activate_fd_nodev o M m fdv hid.1 hid.2 hdev] at h
          obtain ⟨h1, h2, h3, h4⟩ := activateRest_frame o [] o2 tr h
          exact ⟨h1.trans hdev, h2, h3, h4⟩
        · rcases hdup : d.dup2Ok with _ | _
          · rw [activate_fd_dup_fail o M m fdv d hid.1 hid.2 hdev hdup] at h
            exact SignalResult.noConfusion h
          · rw [activate_fd_dup_ok o M m fdv d hid.1 hid.2 hdev hdup] at h
            obtain ⟨h1, h2, h3, h4⟩ := activateRest_frame o [Event.dup2 d.fd fdv] o2 tr h
            exact ⟨h1.trans hdev, h2, h3, h4⟩
    · rw [activate_device_mismatch o M m fd hid] at h
      injection h with ho htr
      subst ho
      exact ⟨rfl, rfl, rfl, backendsFrame_refl _⟩

/-- C10 witness: a session pause on the fixture leaves identity,
privilege, device (mapping) and framed surface fields unchanged. -/
theorem C10_witness :
    obsWp.dev = obsW.dev ∧ obsWp.devId = obsW.devId ∧
    obsWp.privileged = obsW.privileged ∧
    backendsFrame obsW.backends obsWp.backends :=
  C10_signal_frame obsW .PauseSession obsWp
    [Event.clearPlane 31 true, Event.releaseMaster true] (by decide)
